import Mathlib

/-!
Shallow embedding of the terraform-provider-n8n credential provider:
the HTTP transport client (`internal/client`, embedded here in namespace
`client`), the credential repository operations built on it, and the
resource lifecycle logic of `internal/provider` (provider `Configure`,
`validateCredentialBlocks`, `ModifyPlan`, `Read`).

Machine-level aspects are modelled as follows: Go errors are their
message strings (`fmt.Errorf` wrapping is string concatenation); JSON
byte bodies are an inductive `Json` value; the network is an oracle
mapping each issued request to an outcome (transport failure, body-read
failure, or a status code plus body); every operation additionally
returns the list of HTTP requests it issued, so that "operation X was /
was not invoked" is the presence of its request in the trace.
-/

/-- Terraform framework `types.String`: null, unknown, or a known value. -/
inductive TFString where
  | null
  | unknown
  | value (s : String)
deriving DecidableEq, Repr

/-- `types.String.ValueString()`: the known value, `""` for null/unknown. -/
def TFString.valueString : TFString → String
  | .value s => s
  | _ => ""

/-- `types.String.IsNull()`. -/
def TFString.isNull : TFString → Bool
  | .null => true
  | _ => false

/-- `types.String.IsUnknown()`. -/
def TFString.isUnknown : TFString → Bool
  | .unknown => true
  | _ => false

/-- Terraform framework `types.Bool`. -/
inductive TFBool where
  | null
  | unknown
  | value (b : Bool)
deriving DecidableEq, Repr

/-- `types.Bool.ValueBool()`: the known value, `false` for null/unknown. -/
def TFBool.valueBool : TFBool → Bool
  | .value b => b
  | _ => false

/-- `types.Bool.IsNull()`. -/
def TFBool.isNull : TFBool → Bool
  | .null => true
  | _ => false

/-- `types.Bool.IsUnknown()`. -/
def TFBool.isUnknown : TFBool → Bool
  | .unknown => true
  | _ => false

/-- Terraform framework `types.Object` holding an attribute record `α`. -/
inductive TFObject (α : Type) where
  | null
  | unknown
  | known (v : α)
deriving DecidableEq, Repr

/-- `types.Object.IsNull()`. -/
def TFObject.isNull {α : Type} : TFObject α → Bool
  | .null => true
  | _ => false

/-- `types.Object.IsUnknown()`. -/
def TFObject.isUnknown {α : Type} : TFObject α → Bool
  | .unknown => true
  | _ => false

/-- Terraform framework `types.List` of strings (`nodes_access`). -/
inductive TFList where
  | null
  | unknown
  | value (elems : List TFString)
deriving DecidableEq, Repr

/-- `types.List.IsNull()`. -/
def TFList.isNull : TFList → Bool
  | .null => true
  | _ => false

/-- `types.List.IsUnknown()`. -/
def TFList.isUnknown : TFList → Bool
  | .unknown => true
  | _ => false

/-- A JSON value; models the byte bodies that `encoding/json` produces
and consumes. -/
inductive Json where
  | null
  | bool (b : Bool)
  | num (n : Int)
  | str (s : String)
  | arr (elems : List Json)
  | obj (fields : List (String × Json))

mutual

/-- Compact rendering of a JSON value, standing for the raw bytes that
Go's `string(respBody)` interpolates into error messages. -/
def Json.render : Json → String
  | .null => "null"
  | .bool true => "true"
  | .bool false => "false"
  | .num n => toString n
  | .str s => "\"" ++ s ++ "\""
  | .arr elems => "[" ++ Json.renderElems elems ++ "]"
  | .obj fields => "\x7b" ++ Json.renderFields fields ++ "\x7d"

/-- Renders array elements, comma separated. -/
def Json.renderElems : List Json → String
  | [] => ""
  | [x] => Json.render x
  | x :: xs => Json.render x ++ "," ++ Json.renderElems xs

/-- Renders object fields, comma separated. -/
def Json.renderFields : List (String × Json) → String
  | [] => ""
  | [(k, v)] => "\"" ++ k ++ "\":" ++ Json.render v
  | (k, v) :: fs => "\"" ++ k ++ "\":" ++ Json.render v ++ "," ++ Json.renderFields fs

end

/-- Field lookup in a JSON object; like `encoding/json`, a later
duplicate key wins. -/
def jsonLookup (fields : List (String × Json)) (k : String) : Option Json :=
  fields.foldl (fun acc p => if p.1 == k then some p.2 else acc) none

namespace client

/-- An HTTP request as assembled by `doRequest`: method, full URL, and
optional JSON body. -/
structure Request where
  method : String
  url : String
  body : Option Json

/-- What the network does with one request: the `http.Client.Do` call
fails, the body read fails after a response arrived, or a response with
a status code and body is delivered. -/
inductive NetOutcome where
  | netError (msg : String)
  | readError (statusCode : Nat) (msg : String)
  | response (statusCode : Nat) (body : Json)

/-- The remote server / network, as an oracle over requests. -/
def Net : Type := Request → NetOutcome

/-- `client.Client`: host, API key, insecure flag, plus the transport
configuration derived in `NewClient` (TLS skip-verify bit and the fixed
30-second timeout). -/
structure Client where
  Host : String
  APIKey : String
  Insecure : Bool
  tlsInsecureSkipVerify : Bool
  timeoutSeconds : Nat
deriving DecidableEq, Repr

/-- `client.NewClient(host, apiKey *string, insecure *bool)`:
validates presence/non-emptiness of host and api_key and builds the
transport with `InsecureSkipVerify: insecure != nil && *insecure`. -/
def NewClient (host apiKey : Option String) (insecure : Option Bool) :
    Except String Client :=
  match host with
  | none => .error "host is required"
  | some h =>
    if h == "" then .error "host is required"
    else
      match apiKey with
      | none => .error "api_key is required"
      | some k =>
        if k == "" then .error "api_key is required"
        else
          let insecureVal : Bool := match insecure with
            | some b => b
            | none => false
          .ok { Host := h, APIKey := k, Insecure := insecureVal,
                tlsInsecureSkipVerify := insecureVal, timeoutSeconds := 30 }

/-- `apiVersion` constant. -/
def apiVersion : String := "v1"

/-- `Client.doRequest(method, endpoint, body)`: builds the URL, sends
the request, and classifies the outcome.  Returns the result plus the
single request it issued.  (`json.Marshal` of a `Json` value and
`http.NewRequest` on our well-formed method/URL cannot fail, so those
two Go error paths are vacuous in the model.) -/
def doRequest (c : Client) (net : Net) (method endpoint : String)
    (body : Option Json) : Except String Json × List Request :=
  let url := c.Host ++ "/api/" ++ apiVersion ++ "/" ++ endpoint
  let req : Request := { method := method, url := url, body := body }
  match net req with
  | .netError msg => (.error ("error making request: " ++ msg), [req])
  | .readError _ msg => (.error ("error reading response body: " ++ msg), [req])
  | .response statusCode respBody =>
    if statusCode < 200 || 300 ≤ statusCode then
      (.error ("API error (status " ++ toString statusCode ++ "): " ++
        respBody.render), [req])
    else
      (.ok respBody, [req])

/-- `client.NodeAccess`. -/
structure NodeAccess where
  NodeType : String
deriving DecidableEq, Repr

/-- `client.Credential`.  `Data` is Go's `map[string]interface{}`,
modelled as an association list of JSON values. -/
structure Credential where
  ID : String
  Name : String
  «Type» : String
  Data : List (String × Json)
  NodesAccess : List NodeAccess

/-- The zero `client.Credential`, produced when `json.Unmarshal` is
given `null` or an object with all fields absent. -/
def Credential.zero : Credential :=
  { ID := "", Name := "", «Type» := "", Data := [], NodesAccess := [] }

/-- `json.Unmarshal` of one field into a Go `string`: absent or `null`
leaves the zero value, a JSON string is taken, anything else fails. -/
def decodeStringField (v : Option Json) : Except String String :=
  match v with
  | none => .ok ""
  | some .null => .ok ""
  | some (.str s) => .ok s
  | some _ => .error "json: cannot unmarshal value into Go value of type string"

/-- `json.Unmarshal` of one field into `map[string]interface{}`. -/
def decodeDataField (v : Option Json) : Except String (List (String × Json)) :=
  match v with
  | none => .ok []
  | some .null => .ok []
  | some (.obj fields) => .ok fields
  | some _ => .error "json: cannot unmarshal value into Go value of type map"

/-- `json.Unmarshal` of one array element into `client.NodeAccess`. -/
def decodeNodeAccess (v : Json) : Except String NodeAccess :=
  match v with
  | .null => .ok { NodeType := "" }
  | .obj fields =>
    match decodeStringField (jsonLookup fields "nodeType") with
    | .ok s => .ok { NodeType := s }
    | .error e => .error e
  | _ => .error "json: cannot unmarshal value into Go value of type client.NodeAccess"

/-- `json.Unmarshal` of one field into `[]client.NodeAccess`. -/
def decodeNodesAccessField (v : Option Json) : Except String (List NodeAccess) :=
  match v with
  | none => .ok []
  | some .null => .ok []
  | some (.arr elems) => elems.mapM decodeNodeAccess
  | some _ => .error "json: cannot unmarshal value into Go value of type []client.NodeAccess"

/-- `json.Unmarshal(respBody, &credential)` for `client.Credential`. -/
def decodeCredential (j : Json) : Except String Credential :=
  match j with
  | .null => .ok Credential.zero
  | .obj fields => do
    let id ← decodeStringField (jsonLookup fields "id")
    let name ← decodeStringField (jsonLookup fields "name")
    let ty ← decodeStringField (jsonLookup fields "type")
    let data ← decodeDataField (jsonLookup fields "data")
    let nodesAccess ← decodeNodesAccessField (jsonLookup fields "nodesAccess")
    .ok { ID := id, Name := name, «Type» := ty, Data := data,
          NodesAccess := nodesAccess }
  | _ => .error "json: cannot unmarshal value into Go value of type client.Credential"

/-- `json.Unmarshal(respBody, &response)` for `ListCredentialsResponse`
(an object with a `data` array of credentials). -/
def decodeListResponse (j : Json) : Except String (List Credential) :=
  match j with
  | .null => .ok []
  | .obj fields =>
    match jsonLookup fields "data" with
    | none => .ok []
    | some .null => .ok []
    | some (.arr elems) => elems.mapM decodeCredential
    | some _ => .error "json: cannot unmarshal value into Go value of type []client.Credential"
  | _ => .error "json: cannot unmarshal value into Go value of type client.ListCredentialsResponse"

/-- `json.Unmarshal(respBody, &credentials)` for `[]client.Credential`
(the fallback direct-array decoding in `ListCredentials`). -/
def decodeCredentialArray (j : Json) : Except String (List Credential) :=
  match j with
  | .null => .ok []
  | .arr elems => elems.mapM decodeCredential
  | _ => .error "json: cannot unmarshal value into Go value of type []client.Credential"

/-- `Client.CreateCredential`: POSTs `\x7bname, type, data, nodesAccess?\x7d`
and decodes the echoed credential. -/
def CreateCredential (c : Client) (net : Net) (credential : Credential) :
    Except String Credential × List Request :=
  let body0 : List (String × Json) :=
    [("name", .str credential.Name), ("type", .str credential.«Type»),
     ("data", .obj credential.Data)]
  let body :=
    if credential.NodesAccess.length > 0 then
      body0 ++ [("nodesAccess", .arr (credential.NodesAccess.map
        (fun na => Json.obj [("nodeType", .str na.NodeType)])))]
    else body0
  let r := doRequest c net "POST" "credentials" (some (.obj body))
  match r.1 with
  | .error e => (.error e, r.2)
  | .ok respBody =>
    match decodeCredential respBody with
    | .ok createdCredential => (.ok createdCredential, r.2)
    | .error e => (.error ("error unmarshaling response: " ++ e), r.2)

/-- `Client.ListCredentials`: GET `credentials`, decode the wrapped
response, falling back to a direct array on failure. -/
def ListCredentials (c : Client) (net : Net) :
    Except String (List Credential) × List Request :=
  let r := doRequest c net "GET" "credentials" none
  match r.1 with
  | .error e => (.error e, r.2)
  | .ok respBody =>
    match decodeListResponse respBody with
    | .ok response => (.ok response, r.2)
    | .error e =>
      match decodeCredentialArray respBody with
      | .ok credentials => (.ok credentials, r.2)
      | .error _ => (.error ("error unmarshaling response: " ++ e), r.2)

/-- `Client.GetCredential(id)`: direct GET by id first; on any
`doRequest` failure, list all credentials and linearly scan for a
matching ID; not-found error when the scan misses. -/
def GetCredential (c : Client) (net : Net) (id : String) :
    Except String Credential × List Request :=
  let r := doRequest c net "GET" ("credentials/" ++ id) none
  match r.1 with
  | .ok respBody =>
    (match decodeCredential respBody with
     | .ok credential => .ok credential
     | .error e => .error ("error unmarshaling response: " ++ e), r.2)
  | .error _ =>
    let l := ListCredentials c net
    match l.1 with
    | .error e => (.error ("error listing credentials: " ++ e), r.2 ++ l.2)
    | .ok credentials =>
      match credentials.find? (fun cred => cred.ID == id) with
      | some cred => (.ok cred, r.2 ++ l.2)
      | none => (.error ("credential with ID " ++ id ++ " not found"), r.2 ++ l.2)

/-- `Client.DeleteCredential(id)`: DELETE by id, discarding the body. -/
def DeleteCredential (c : Client) (net : Net) (id : String) :
    Except String Unit × List Request :=
  let r := doRequest c net "DELETE" ("credentials/" ++ id) none
  (r.1.map (fun _ => ()), r.2)

/-- `Client.UpdateCredential(id, credential)`: delete the old
credential, then create the new one; each failure is wrapped with its
own context message. -/
def UpdateCredential (c : Client) (net : Net) (id : String)
    (credential : Credential) : Except String Credential × List Request :=
  let d := DeleteCredential c net id
  match d.1 with
  | .error e =>
    (.error ("failed to delete old credential before update: " ++ e), d.2)
  | .ok _ =>
    let cr := CreateCredential c net credential
    match cr.1 with
    | .error e =>
      (.error ("failed to create new credential after delete: " ++ e), d.2 ++ cr.2)
    | .ok newCredential => (.ok newCredential, d.2 ++ cr.2)

end client

namespace provider

/-- A diagnostic added to `resp.Diagnostics`: either a plain error
(`AddError`) or an attribute error with its path (`AddAttributeError`,
path `root` / `root.attr`). -/
inductive Diag where
  | err (summary detail : String)
  | attrErr (root attr : String) (summary detail : String)
deriving DecidableEq, Repr

/-- `basicAuthModel`. -/
structure basicAuthModel where
  Username : TFString
  Password : TFString
deriving DecidableEq, Repr

/-- `oAuth2Model`. -/
structure oAuth2Model where
  ClientId : TFString
  ClientSecret : TFString
  AccessTokenUrl : TFString
  AuthUrl : TFString
  Scope : TFString
  AuthQueryParameters : TFString
  SendAdditionalBodyProperties : TFBool
  AdditionalBodyProperties : TFString
deriving DecidableEq, Repr

/-- `headerAuthModel`. -/
structure headerAuthModel where
  Name : TFString
  Value : TFString
deriving DecidableEq, Repr

/-- `credentialResourceModel`. -/
structure credentialResourceModel where
  ID : TFString
  Name : TFString
  BasicAuth : TFObject basicAuthModel
  OAuth2 : TFObject oAuth2Model
  HeaderAuth : TFObject headerAuthModel
  NodesAccess : TFList
deriving DecidableEq, Repr

/-- The `!block.IsNull() && !block.IsUnknown()` test used by both
`validateCredentialBlocks` and `ModifyPlan` to decide whether a shape
block is populated. -/
def blockPopulated {α : Type} (b : TFObject α) : Bool :=
  !b.isNull && !b.isUnknown

/-- The `data` map assembled for a populated `basic_auth` block. -/
def basicAuthData (basicAuth : basicAuthModel) : List (String × Json) :=
  [("user", .str basicAuth.Username.valueString),
   ("password", .str basicAuth.Password.valueString)]

/-- The `data` map assembled for a populated `oauth2` block, including
the three optional fields with their defaults when null. -/
def oauth2Data (oauth2 : oAuth2Model) : List (String × Json) :=
  let data : List (String × Json) :=
    [("clientId", .str oauth2.ClientId.valueString),
     ("clientSecret", .str oauth2.ClientSecret.valueString),
     ("accessTokenUrl", .str oauth2.AccessTokenUrl.valueString),
     ("authUrl", .str oauth2.AuthUrl.valueString),
     ("scope", .str oauth2.Scope.valueString)]
  let data := data ++
    [("authQueryParameters",
      .str (if !oauth2.AuthQueryParameters.isNull
            then oauth2.AuthQueryParameters.valueString else ""))]
  let data := data ++
    [("sendAdditionalBodyProperties",
      .bool (if !oauth2.SendAdditionalBodyProperties.isNull
             then oauth2.SendAdditionalBodyProperties.valueBool else false))]
  data ++
    [("additionalBodyProperties",
      .str (if !oauth2.AdditionalBodyProperties.isNull
            then oauth2.AdditionalBodyProperties.valueString else ""))]

/-- The `data` map assembled for a populated `header_auth` block. -/
def headerAuthData (headerAuth : headerAuthModel) : List (String × Json) :=
  [("name", .str headerAuth.Name.valueString),
   ("value", .str headerAuth.Value.valueString)]

/-- `validateCredentialBlocks`: walks the three shape blocks in order,
counting the populated ones and (re)assigning `credentialType`/`data`
for each, then enforces "exactly one". -/
def validateCredentialBlocks (model : credentialResourceModel) :
    Except String (String × List (String × Json)) :=
  let acc0 : Nat × String × List (String × Json) := (0, "", [])
  let acc1 := match model.BasicAuth with
    | .known basicAuth => (acc0.1 + 1, "httpBasicAuth", basicAuthData basicAuth)
    | _ => acc0
  let acc2 := match model.OAuth2 with
    | .known oauth2 => (acc1.1 + 1, "oAuth2Api", oauth2Data oauth2)
    | _ => acc1
  let acc3 := match model.HeaderAuth with
    | .known headerAuth => (acc2.1 + 1, "httpHeaderAuth", headerAuthData headerAuth)
    | _ => acc2
  if acc3.1 == 0 then
    .error "exactly one credential block must be specified (basic_auth, oauth2, or header_auth)"
  else if acc3.1 > 1 then
    .error ("exactly one credential block must be specified, but " ++
      toString acc3.1 ++ " were found")
  else
    .ok (acc3.2.1, acc3.2.2)

/-- Go's `fmt.Sprintf("%v", names)` on a string slice. -/
def goSliceFmt (names : List String) : String :=
  "[" ++ String.intercalate " " names ++ "]"

/-- A mandatory field is "missing" in `ModifyPlan` when it is null or
unknown. -/
def missingStr (s : TFString) : Bool :=
  s.isNull || s.isUnknown

/-- The field-level diagnostics `ModifyPlan` collects for a populated
`basic_auth` block. -/
def basicAuthFieldDiags (basicAuth : basicAuthModel) : List Diag :=
  (if missingStr basicAuth.Username then
    [.attrErr "basic_auth" "username" "Missing Required Attribute"
      "The username attribute is required when using the basic_auth block."]
   else []) ++
  (if missingStr basicAuth.Password then
    [.attrErr "basic_auth" "password" "Missing Required Attribute"
      "The password attribute is required when using the basic_auth block."]
   else [])

/-- The field-level diagnostics `ModifyPlan` collects for a populated
`oauth2` block: one per missing mandatory field, in declaration order. -/
def oauth2FieldDiags (oauth2 : oAuth2Model) : List Diag :=
  (if missingStr oauth2.ClientId then
    [.attrErr "oauth2" "client_id" "Missing Required Attribute"
      "The client_id attribute is required when using the oauth2 block."]
   else []) ++
  (if missingStr oauth2.ClientSecret then
    [.attrErr "oauth2" "client_secret" "Missing Required Attribute"
      "The client_secret attribute is required when using the oauth2 block."]
   else []) ++
  (if missingStr oauth2.AccessTokenUrl then
    [.attrErr "oauth2" "access_token_url" "Missing Required Attribute"
      "The access_token_url attribute is required when using the oauth2 block."]
   else []) ++
  (if missingStr oauth2.AuthUrl then
    [.attrErr "oauth2" "auth_url" "Missing Required Attribute"
      "The auth_url attribute is required when using the oauth2 block."]
   else []) ++
  (if missingStr oauth2.Scope then
    [.attrErr "oauth2" "scope" "Missing Required Attribute"
      "The scope attribute is required when using the oauth2 block."]
   else [])

/-- The field-level diagnostics `ModifyPlan` collects for a populated
`header_auth` block. -/
def headerAuthFieldDiags (headerAuth : headerAuthModel) : List Diag :=
  (if missingStr headerAuth.Name then
    [.attrErr "header_auth" "name" "Missing Required Attribute"
      "The name attribute is required when using the header_auth block."]
   else []) ++
  (if missingStr headerAuth.Value then
    [.attrErr "header_auth" "value" "Missing Required Attribute"
      "The value attribute is required when using the header_auth block."]
   else [])

/-- `credentialResource.ModifyPlan`: skip on a null plan, count the
populated blocks, skip when all three are unknown, reject zero or
multiple blocks with a single plan-level error, and otherwise collect
every missing-mandatory-field attribute error of the selected block. -/
def ModifyPlan (planRawIsNull : Bool) (plan : credentialResourceModel) :
    List Diag :=
  if planRawIsNull then []
  else
    let blocksNames1 : Nat × List String :=
      if blockPopulated plan.BasicAuth then (1, ["basic_auth"]) else (0, [])
    let blocksNames2 :=
      if blockPopulated plan.OAuth2 then
        (blocksNames1.1 + 1, blocksNames1.2 ++ ["oauth2"])
      else blocksNames1
    let blocksNames3 :=
      if blockPopulated plan.HeaderAuth then
        (blocksNames2.1 + 1, blocksNames2.2 ++ ["header_auth"])
      else blocksNames2
    let blocksDefined := blocksNames3.1
    let blockNames := blocksNames3.2
    if plan.BasicAuth.isUnknown && plan.OAuth2.isUnknown && plan.HeaderAuth.isUnknown then
      []
    else if blocksDefined == 0 then
      [.err "Missing Credential Block"
        "Exactly one credential block must be specified: basic_auth, oauth2, or header_auth"]
    else if blocksDefined > 1 then
      [.err "Multiple Credential Blocks"
        ("Exactly one credential block must be specified, but " ++
          toString blocksDefined ++ " were found (" ++ goSliceFmt blockNames ++
          "). Please specify only one of: basic_auth, oauth2, or header_auth")]
    else
      (match plan.BasicAuth with
       | .known basicAuth => basicAuthFieldDiags basicAuth
       | _ => []) ++
      (match plan.OAuth2 with
       | .known oauth2 => oauth2FieldDiags oauth2
       | _ => []) ++
      (match plan.HeaderAuth with
       | .known headerAuth => headerAuthFieldDiags headerAuth
       | _ => [])

end provider

namespace provider

/-- Result of a lifecycle `Read`: the state written back via
`resp.State.Set` plus the diagnostics added.  (`tflog.Warn` is a log
entry, not a diagnostic, so the failure path adds none.) -/
structure ReadResult where
  state : credentialResourceModel
  diagnostics : List Diag
deriving DecidableEq, Repr

/-- `credentialResource.Read`: fetch by the stored id; on any fetch
error, write the prior state back unchanged with no error diagnostic;
on success, refresh `id` and `name`, replace `nodes_access` with the
fetched entries when there are any and set it to the null list when
there are none, and leave the shape blocks untouched. -/
def Read (c : client.Client) (net : client.Net)
    (state : credentialResourceModel) : ReadResult :=
  match (client.GetCredential c net state.ID.valueString).1 with
  | .error _ =>
    { state := state, diagnostics := [] }
  | .ok credential =>
    let state1 := { state with
      ID := TFString.value credential.ID,
      Name := TFString.value credential.Name }
    let state2 :=
      if credential.NodesAccess.length > 0 then
        let nodeTypeValues :=
          credential.NodesAccess.map (fun na => TFString.value na.NodeType)
        { state1 with NodesAccess := TFList.value nodeTypeValues }
      else
        { state1 with NodesAccess := TFList.null }
    { state := state2, diagnostics := [] }

/-- `n8nProviderModel`. -/
structure n8nProviderModel where
  Host : TFString
  APIKey : TFString
  Insecure : TFBool
deriving DecidableEq, Repr

/-- Result of provider `Configure`: diagnostics plus the client handed
to resources/data sources (`resp.ResourceData`), when one was built. -/
structure ConfigureResult where
  diagnostics : List Diag
  resourceData : Option client.Client
deriving DecidableEq, Repr

/-- `n8nProvider.Configure`.  Its observable inputs are the provider
configuration block and, in principle, the process environment `env`;
the function body in `provider.go` performs no environment lookup (there
is no `os.Getenv` call anywhere in the repository), so `env` is taken as
an argument and never consulted.  The body: reject unknown host/api_key,
read their string values, default `insecure` to false when null, reject
empty host/api_key, and build the client with `client.NewClient`. -/
def Configure (config : n8nProviderModel) (_env : List (String × String)) :
    ConfigureResult :=
  let unknownDiags : List Diag :=
    (if config.Host.isUnknown then
      [.attrErr "host" "" "Unknown n8n API Host"
        ("The provider cannot create the n8n API client as there is an unknown configuration value for the n8n API host. " ++
         "Either apply the source of the value first, or set the value statically in the configuration.")]
     else []) ++
    (if config.APIKey.isUnknown then
      [.attrErr "api_key" "" "Unknown n8n API Key"
        ("The provider cannot create the n8n API client as there is an unknown configuration value for the n8n API key. " ++
         "Either apply the source of the value first, or set the value statically in the configuration.")]
     else [])
  if unknownDiags.length > 0 then
    { diagnostics := unknownDiags, resourceData := none }
  else
    let host := config.Host.valueString
    let apiKey := config.APIKey.valueString
    let insecure := if !config.Insecure.isNull then config.Insecure.valueBool else false
    let emptyDiags : List Diag :=
      (if host == "" then
        [.attrErr "host" "" "Missing n8n API Host"
          ("The provider cannot create the n8n API client as there is an empty value for the n8n API host. " ++
           "Ensure the host value is not empty.")]
       else []) ++
      (if apiKey == "" then
        [.attrErr "api_key" "" "Missing n8n API Key"
          ("The provider cannot create the n8n API client as there is an empty value for the n8n API key. " ++
           "Ensure the api_key value is not empty.")]
       else [])
    if emptyDiags.length > 0 then
      { diagnostics := emptyDiags, resourceData := none }
    else
      match client.NewClient (some host) (some apiKey) (some insecure) with
      | .error e =>
        { diagnostics := [.err "Unable to Create n8n API Client"
            ("An unexpected error occurred when creating the n8n API client. " ++
             "If the error is not clear, please contact the provider developers.\n\n" ++
             "n8n Client Error: " ++ e)],
          resourceData := none }
      | .ok n8nClient =>
        { diagnostics := [], resourceData := some n8nClient }

end provider

/-- Number of populated shape blocks in a declaration, in the sense both
validators use (`!IsNull && !IsUnknown`). -/
def populatedShapeCount (model : provider.credentialResourceModel) : Nat :=
  (if provider.blockPopulated model.BasicAuth then 1 else 0) +
  (if provider.blockPopulated model.OAuth2 then 1 else 0) +
  (if provider.blockPopulated model.HeaderAuth then 1 else 0)

/-- A configured client, as `NewClient` builds it for the example host. -/
def exampleClient : client.Client :=
  { Host := "https://n8n.example.com", APIKey := "test-api-key",
    Insecure := false, tlsInsecureSkipVerify := false, timeoutSeconds := 30 }

/-- A server that answers every request with status 500. -/
def netServerError : client.Net := fun _ => .response 500 (.str "boom")

/-- A server that answers every request with status 404. -/
def netNotFound : client.Net := fun _ => .response 404 (.str "not found")

/-- A server that rejects direct GET-by-id with 404 but serves the
credential list. -/
def netListOnly : client.Net := fun req =>
  if req.url == "https://n8n.example.com/api/v1/credentials" then
    .response 200 (.obj [("data", .arr
      [.obj [("id", .str "abc123"), ("name", .str "x")]])])
  else
    .response 404 (.str "not found")

/-- A server that answers every request with one credential object that
carries no `nodesAccess` entries. -/
def netCredOk : client.Net := fun _ =>
  .response 200 (.obj [("id", .str "abc123"), ("name", .str "x")])

/-- A credential to pass to `UpdateCredential`. -/
def exampleCredential : client.Credential :=
  { ID := "", Name := "x", «Type» := "httpBasicAuth",
    Data := [("user", .str "u"), ("password", .str "p")], NodesAccess := [] }

/-- A stored resource state holding a basic_auth credential and a
non-empty `nodes_access` list. -/
def exampleState : provider.credentialResourceModel :=
  { ID := .value "abc123", Name := .value "x",
    BasicAuth := .known { Username := .value "u", Password := .value "p" },
    OAuth2 := .null, HeaderAuth := .null,
    NodesAccess := .value [.value "httpRequest"] }

/-- A declaration populating only the basic_auth shape. -/
def basicOnlyModel : provider.credentialResourceModel :=
  { ID := .null, Name := .value "my-cred",
    BasicAuth := .known { Username := .value "u", Password := .value "p" },
    OAuth2 := .null, HeaderAuth := .null, NodesAccess := .null }

/-- A declaration populating only the oauth2 shape, with `client_id`
null, `scope` unknown, and the three optional fields unset. -/
def oauth2PartialModel : provider.credentialResourceModel :=
  { ID := .null, Name := .value "my-oauth",
    BasicAuth := .null,
    OAuth2 := .known
      { ClientId := .null, ClientSecret := .value "cs",
        AccessTokenUrl := .value "https://t", AuthUrl := .value "https://a",
        Scope := .unknown, AuthQueryParameters := .null,
        SendAdditionalBodyProperties := .null,
        AdditionalBodyProperties := .null },
    HeaderAuth := .null, NodesAccess := .null }

/-- A declaration populating only the basic_auth shape, with `password`
omitted (null). -/
def basicPartialModel : provider.credentialResourceModel :=
  { ID := .null, Name := .value "my-basic",
    BasicAuth := .known { Username := .value "u", Password := .null },
    OAuth2 := .null, HeaderAuth := .null, NodesAccess := .null }

/-- A declaration populating only the header_auth shape, with `value`
unknown. -/
def headerPartialModel : provider.credentialResourceModel :=
  { ID := .null, Name := .value "my-header",
    BasicAuth := .null, OAuth2 := .null,
    HeaderAuth := .known { Name := .value "Authorization", Value := .unknown },
    NodesAccess := .null }

/-- The request trace of `doRequest` is exactly the one request it
assembles, whatever the network does with it. -/
theorem doRequest_requests (c : client.Client) (net : client.Net)
    (method endpoint : String) (body : Option Json) :
    (client.doRequest c net method endpoint body).2 =
      [{ method := method,
         url := c.Host ++ "/api/" ++ client.apiVersion ++ "/" ++ endpoint,
         body := body }] := by
  unfold client.doRequest
  rcases hn : net { method := method,
                    url := c.Host ++ "/api/" ++ client.apiVersion ++ "/" ++ endpoint,
                    body := body } with _ | _ | ⟨s, b⟩
  · simp [hn]
  · simp [hn]
  · simp only [hn]
    split <;> rfl

/-- C6: for every HTTP response received by the transport client, a
status code outside [200,300) makes `doRequest` return an error carrying
that status code and the raw response body, and a status inside [200,300)
makes it return the raw body without error. -/
theorem doRequest_classifies_status (c : client.Client) (net : client.Net)
    (method endpoint : String) (body : Option Json)
    (statusCode : Nat) (respBody : Json)
    (h : net { method := method,
               url := c.Host ++ "/api/" ++ client.apiVersion ++ "/" ++ endpoint,
               body := body } = .response statusCode respBody) :
    ((statusCode < 200 ∨ 300 ≤ statusCode) →
      (client.doRequest c net method endpoint body).1 =
        .error ("API error (status " ++ toString statusCode ++ "): " ++
          respBody.render)) ∧
    ((200 ≤ statusCode ∧ statusCode < 300) →
      (client.doRequest c net method endpoint body).1 = .ok respBody) := by
  constructor
  · intro hout
    simp [client.doRequest, h, hout]
  · rintro ⟨h1, h2⟩
    have hout : ¬ (statusCode < 200 ∨ 300 ≤ statusCode) := by omega
    simp [client.doRequest, h, hout]

/-- Witness for `doRequest_classifies_status` at a concrete 404
response and a concrete 204 response. -/
theorem doRequest_classifies_status_witness :
    (client.doRequest exampleClient netNotFound "GET" "credentials" none).1 =
      .error ("API error (status " ++ toString 404 ++ "): " ++
        (Json.str "not found").render) ∧
    (client.doRequest exampleClient netCredOk "GET" "credentials" none).1 =
      .ok (.obj [("id", .str "abc123"), ("name", .str "x")]) :=
  ⟨(doRequest_classifies_status exampleClient netNotFound "GET" "credentials"
      none 404 (.str "not found") rfl).1 (Or.inr (by omega)),
   (doRequest_classifies_status exampleClient netCredOk "GET" "credentials"
      none 200 (.obj [("id", .str "abc123"), ("name", .str "x")]) rfl).2
     ⟨by omega, by omega⟩⟩

/-- C9: TLS certificate verification is skipped iff the insecure option
is explicitly `some true`; a nil or false option leaves verification
enabled. -/
theorem newClient_insecure_opt_in (host apiKey : Option String)
    (insecure : Option Bool) (c : client.Client)
    (h : client.NewClient host apiKey insecure = .ok c) :
    (c.tlsInsecureSkipVerify = true ↔ insecure = some true) ∧
    (c.Insecure = true ↔ insecure = some true) := by
  rcases host with _ | h0
  · simp [client.NewClient] at h
  · rcases apiKey with _ | k0
    · simp only [client.NewClient] at h
      split at h <;> simp at h
    · simp only [client.NewClient] at h
      split at h
      · simp at h
      · split at h
        · simp at h
        · have hc := Except.ok.inj h
          subst hc
          rcases insecure with _ | b
          · simp
          · rcases b <;> simp

/-- Witness for `newClient_insecure_opt_in`: building a client with the
insecure option absent leaves certificate verification on. -/
theorem newClient_insecure_opt_in_witness :
    (({ Host := "https://n8n.example.com", APIKey := "test-api-key",
        Insecure := false, tlsInsecureSkipVerify := false,
        timeoutSeconds := 30 } : client.Client).tlsInsecureSkipVerify = true ↔
      (none : Option Bool) = some true) ∧
    (({ Host := "https://n8n.example.com", APIKey := "test-api-key",
        Insecure := false, tlsInsecureSkipVerify := false,
        timeoutSeconds := 30 } : client.Client).Insecure = true ↔
      (none : Option Bool) = some true) :=
  newClient_insecure_opt_in (some "https://n8n.example.com")
    (some "test-api-key") none _ rfl

/-- `DeleteCredential` fails with `e` exactly when its one `doRequest`
does: the body is discarded, the error passed through. -/
theorem deleteCredential_error_iff (c : client.Client) (net : client.Net)
    (id : String) (e : String) :
    (client.DeleteCredential c net id).1 = .error e ↔
    (client.doRequest c net "DELETE" ("credentials/" ++ id) none).1 = .error e := by
  unfold client.DeleteCredential
  cases hr : (client.doRequest c net "DELETE" ("credentials/" ++ id) none).1 <;>
    simp [hr, Except.map]

/-- C1 (amended): when the initial Delete fails, `UpdateCredential`
issues no further request — its whole trace is the single DELETE, so
Create's POST is never sent — and returns the delete error wrapped with
the context prefix "failed to delete old credential before update: "
(not the delete error itself unchanged). -/
theorem updateCredential_aborts_on_delete_failure
    (c : client.Client) (net : client.Net) (id : String)
    (credential : client.Credential) (e : String)
    (h : (client.DeleteCredential c net id).1 = .error e) :
    (client.UpdateCredential c net id credential).1 =
      .error ("failed to delete old credential before update: " ++ e) ∧
    (client.UpdateCredential c net id credential).2 =
      [{ method := "DELETE",
         url := c.Host ++ "/api/" ++ client.apiVersion ++ "/" ++ ("credentials/" ++ id),
         body := none }] ∧
    (∀ r ∈ (client.UpdateCredential c net id credential).2, r.method ≠ "POST") := by
  have hu : client.UpdateCredential c net id credential =
      (.error ("failed to delete old credential before update: " ++ e),
        (client.DeleteCredential c net id).2) := by
    simp only [client.UpdateCredential]
    rw [h]
  have htr : (client.DeleteCredential c net id).2 =
      [{ method := "DELETE",
         url := c.Host ++ "/api/" ++ client.apiVersion ++ "/" ++ ("credentials/" ++ id),
         body := none }] :=
    doRequest_requests c net "DELETE" ("credentials/" ++ id) none
  refine ⟨by rw [hu], by rw [hu]; exact htr, ?_⟩
  intro r hr
  rw [hu] at hr
  simp only at hr
  rw [htr] at hr
  simp only [List.mem_singleton] at hr
  subst hr
  simp

/-- Witness for `updateCredential_aborts_on_delete_failure` against a
server that fails the DELETE with status 500. -/
theorem updateCredential_aborts_on_delete_failure_witness :
    (client.UpdateCredential exampleClient netServerError "abc123"
        exampleCredential).1 =
      .error ("failed to delete old credential before update: " ++
        "API error (status 500): \"boom\"") ∧
    (client.UpdateCredential exampleClient netServerError "abc123"
        exampleCredential).2 =
      [{ method := "DELETE",
         url := exampleClient.Host ++ "/api/" ++ client.apiVersion ++ "/" ++
           ("credentials/" ++ "abc123"),
         body := none }] ∧
    (∀ r ∈ (client.UpdateCredential exampleClient netServerError "abc123"
        exampleCredential).2, r.method ≠ "POST") :=
  updateCredential_aborts_on_delete_failure exampleClient netServerError
    "abc123" exampleCredential "API error (status 500): \"boom\"" rfl

/-- C1 counterexample: with a concrete failing DELETE, the error
`UpdateCredential` returns is not the delete error unchanged — it is the
wrapped message, so the claim's "returns that same delete error
unchanged" is false on the code. -/
theorem updateCredential_error_not_unchanged_counterexample :
    (client.DeleteCredential exampleClient netServerError "abc123").1 =
      .error "API error (status 500): \"boom\"" ∧
    (client.UpdateCredential exampleClient netServerError "abc123"
        exampleCredential).1 ≠
      .error "API error (status 500): \"boom\"" := by
  constructor
  · rfl
  · intro hcontra
    have h1 : (client.UpdateCredential exampleClient netServerError "abc123"
        exampleCredential).1 =
        .error "failed to delete old credential before update: API error (status 500): \"boom\"" := rfl
    rw [h1] at hcontra
    exact absurd (Except.error.inj hcontra) (by decide)

/-- C5: `GetCredential` first attempts the direct GET by id, returning
its decoded credential on success; if the direct GET fails for any
reason, it falls back to listing all credentials and linearly scanning
for a matching id, returning the first match, and returns a not-found
error when the list succeeds but contains no matching credential. -/
theorem getCredential_direct_then_fallback (c : client.Client)
    (net : client.Net) (id : String) :
    (∀ respBody credential,
      (client.doRequest c net "GET" ("credentials/" ++ id) none).1 = .ok respBody →
      client.decodeCredential respBody = .ok credential →
      (client.GetCredential c net id).1 = .ok credential) ∧
    (∀ e, (client.doRequest c net "GET" ("credentials/" ++ id) none).1 = .error e →
      (∀ credentials credential,
        (client.ListCredentials c net).1 = .ok credentials →
        credentials.find? (fun cred => cred.ID == id) = some credential →
        (client.GetCredential c net id).1 = .ok credential) ∧
      (∀ credentials,
        (client.ListCredentials c net).1 = .ok credentials →
        credentials.find? (fun cred => cred.ID == id) = none →
        (client.GetCredential c net id).1 =
          .error ("credential with ID " ++ id ++ " not found"))) := by
  refine ⟨?_, ?_⟩
  · intro respBody credential h1 h2
    simp only [client.GetCredential, h1, h2]
  · intro e he
    refine ⟨?_, ?_⟩
    · intro credentials credential hl hf
      simp only [client.GetCredential, he, hl, hf]
    · intro credentials hl hf
      simp only [client.GetCredential, he, hl, hf]

/-- Witness for `getCredential_direct_then_fallback`: a server that 404s
the direct GET but serves the list yields the scanned credential. -/
theorem getCredential_direct_then_fallback_witness :
    (client.GetCredential exampleClient netListOnly "abc123").1 =
      .ok { ID := "abc123", Name := "x", «Type» := "", Data := [],
            NodesAccess := [] } :=
  ((getCredential_direct_then_fallback exampleClient netListOnly "abc123").2
      "API error (status 404): \"not found\"" rfl).1
    [{ ID := "abc123", Name := "x", «Type» := "", Data := [], NodesAccess := [] }]
    { ID := "abc123", Name := "x", «Type» := "", Data := [], NodesAccess := [] }
    rfl rfl

/-- C7: when the fetch behind the lifecycle Read fails for any reason,
Read adds no error diagnostic and writes the previously held state back
completely unchanged — every field retains its prior value. -/
theorem read_failure_keeps_state (c : client.Client) (net : client.Net)
    (state : provider.credentialResourceModel) (e : String)
    (h : (client.GetCredential c net state.ID.valueString).1 = .error e) :
    provider.Read c net state =
      { state := state, diagnostics := [] } := by
  simp only [provider.Read, h]

/-- Witness for `read_failure_keeps_state`: a server that 404s both the
direct GET and the list fallback leaves the stored state untouched. -/
theorem read_failure_keeps_state_witness :
    provider.Read exampleClient netNotFound exampleState =
      { state := exampleState, diagnostics := [] } :=
  read_failure_keeps_state exampleClient netNotFound exampleState
    "error listing credentials: API error (status 404): \"not found\"" rfl

/-- C10: when the fetch behind Read succeeds, a credential carrying zero
nodesAccess entries makes Read null out the stored `nodes_access` list,
while one or more entries replace the stored list with those entries. -/
theorem read_success_nodes_access (c : client.Client) (net : client.Net)
    (state : provider.credentialResourceModel)
    (credential : client.Credential)
    (h : (client.GetCredential c net state.ID.valueString).1 = .ok credential) :
    (credential.NodesAccess = [] →
      (provider.Read c net state).state.NodesAccess = TFList.null) ∧
    (credential.NodesAccess ≠ [] →
      (provider.Read c net state).state.NodesAccess =
        TFList.value (credential.NodesAccess.map
          (fun na => TFString.value na.NodeType))) := by
  constructor
  · intro hna
    simp [provider.Read, h, hna]
  · intro hna
    have hlen : credential.NodesAccess.length > 0 := by
      cases hc : credential.NodesAccess with
      | nil => exact absurd hc hna
      | cons a l => simp [hc]
    simp [provider.Read, h, hlen]

/-- Witness for `read_success_nodes_access`: a fetched credential with
no nodesAccess entries clears the previously stored list to null. -/
theorem read_success_nodes_access_witness :
    (provider.Read exampleClient netCredOk exampleState).state.NodesAccess =
      TFList.null :=
  (read_success_nodes_access exampleClient netCredOk exampleState
      { ID := "abc123", Name := "x", «Type» := "", Data := [],
        NodesAccess := [] } rfl).1 rfl

/-- C2: shape validation fails when zero shape blocks are populated and
when two or more are, and with exactly one populated it returns a
`(type, payload)` pair whose type is the populated shape's canonical
remote name: basic_auth → "httpBasicAuth", oauth2 → "oAuth2Api",
header_auth → "httpHeaderAuth". -/
theorem validateCredentialBlocks_exactly_one
    (model : provider.credentialResourceModel) :
    (populatedShapeCount model = 0 →
      ∃ e, provider.validateCredentialBlocks model = .error e) ∧
    (2 ≤ populatedShapeCount model →
      ∃ e, provider.validateCredentialBlocks model = .error e) ∧
    (provider.blockPopulated model.BasicAuth = true →
      populatedShapeCount model = 1 →
      ∃ payload,
        provider.validateCredentialBlocks model = .ok ("httpBasicAuth", payload)) ∧
    (provider.blockPopulated model.OAuth2 = true →
      populatedShapeCount model = 1 →
      ∃ payload,
        provider.validateCredentialBlocks model = .ok ("oAuth2Api", payload)) ∧
    (provider.blockPopulated model.HeaderAuth = true →
      populatedShapeCount model = 1 →
      ∃ payload,
        provider.validateCredentialBlocks model = .ok ("httpHeaderAuth", payload)) := by
  obtain ⟨mid, mname, mb, mo, mh, mn⟩ := model
  cases mb <;> cases mo <;> cases mh <;>
    simp [provider.validateCredentialBlocks, provider.blockPopulated,
      populatedShapeCount, TFObject.isNull, TFObject.isUnknown]

/-- Witness for `validateCredentialBlocks_exactly_one`: a declaration
populating only basic_auth maps to type "httpBasicAuth". -/
theorem validateCredentialBlocks_exactly_one_witness :
    ∃ payload,
      provider.validateCredentialBlocks basicOnlyModel =
        .ok ("httpBasicAuth", payload) :=
  (validateCredentialBlocks_exactly_one basicOnlyModel).2.2.1 rfl rfl

/-- When exactly the basic_auth shape is populated, `ModifyPlan`
reduces to the basic_auth field checks. -/
theorem modifyPlan_eq_basicAuthFieldDiags
    (plan : provider.credentialResourceModel)
    (basicAuth : provider.basicAuthModel)
    (hb : plan.BasicAuth = .known basicAuth)
    (ho : provider.blockPopulated plan.OAuth2 = false)
    (hh : provider.blockPopulated plan.HeaderAuth = false) :
    provider.ModifyPlan false plan = provider.basicAuthFieldDiags basicAuth := by
  cases hco : plan.OAuth2 <;> cases hch : plan.HeaderAuth <;>
    first
    | (simp [hco, provider.blockPopulated, TFObject.isNull,
        TFObject.isUnknown] at ho; done)
    | (simp [hch, provider.blockPopulated, TFObject.isNull,
        TFObject.isUnknown] at hh; done)
    | simp [provider.ModifyPlan, hb, hco, hch, provider.blockPopulated,
        TFObject.isNull, TFObject.isUnknown]

/-- When exactly the oauth2 shape is populated, `ModifyPlan` reduces to
the oauth2 field checks. -/
theorem modifyPlan_eq_oauth2FieldDiags
    (plan : provider.credentialResourceModel)
    (oauth2 : provider.oAuth2Model)
    (ho : plan.OAuth2 = .known oauth2)
    (hb : provider.blockPopulated plan.BasicAuth = false)
    (hh : provider.blockPopulated plan.HeaderAuth = false) :
    provider.ModifyPlan false plan = provider.oauth2FieldDiags oauth2 := by
  cases hcb : plan.BasicAuth <;> cases hch : plan.HeaderAuth <;>
    first
    | (simp [hcb, provider.blockPopulated, TFObject.isNull,
        TFObject.isUnknown] at hb; done)
    | (simp [hch, provider.blockPopulated, TFObject.isNull,
        TFObject.isUnknown] at hh; done)
    | simp [provider.ModifyPlan, ho, hcb, hch, provider.blockPopulated,
        TFObject.isNull, TFObject.isUnknown]

/-- When exactly the header_auth shape is populated, `ModifyPlan`
reduces to the header_auth field checks. -/
theorem modifyPlan_eq_headerAuthFieldDiags
    (plan : provider.credentialResourceModel)
    (headerAuth : provider.headerAuthModel)
    (hh : plan.HeaderAuth = .known headerAuth)
    (hb : provider.blockPopulated plan.BasicAuth = false)
    (ho : provider.blockPopulated plan.OAuth2 = false) :
    provider.ModifyPlan false plan = provider.headerAuthFieldDiags headerAuth := by
  cases hcb : plan.BasicAuth <;> cases hco : plan.OAuth2 <;>
    first
    | (simp [hcb, provider.blockPopulated, TFObject.isNull,
        TFObject.isUnknown] at hb; done)
    | (simp [hco, provider.blockPopulated, TFObject.isNull,
        TFObject.isUnknown] at ho; done)
    | simp [provider.ModifyPlan, hh, hcb, hco, provider.blockPopulated,
        TFObject.isNull, TFObject.isUnknown]

/-- C3: for every configuration selecting exactly one shape, `ModifyPlan`
reports a field-level error naming the shape and field for each missing
mandatory field of that shape — whichever shape it is — with each error
present iff its field is missing, and the diagnostic count equal to the
number of missing fields, so all errors are collected and reported
together rather than only the first one found. -/
theorem modifyPlan_collects_missing_mandatory_fields
    (plan : provider.credentialResourceModel) :
    (∀ basicAuth : provider.basicAuthModel,
      plan.BasicAuth = .known basicAuth →
      provider.blockPopulated plan.OAuth2 = false →
      provider.blockPopulated plan.HeaderAuth = false →
      (provider.missingStr basicAuth.Username = true ↔
        provider.Diag.attrErr "basic_auth" "username" "Missing Required Attribute"
          "The username attribute is required when using the basic_auth block."
          ∈ provider.ModifyPlan false plan) ∧
      (provider.missingStr basicAuth.Password = true ↔
        provider.Diag.attrErr "basic_auth" "password" "Missing Required Attribute"
          "The password attribute is required when using the basic_auth block."
          ∈ provider.ModifyPlan false plan) ∧
      (provider.ModifyPlan false plan).length =
        ((if provider.missingStr basicAuth.Username then 1 else 0) +
         (if provider.missingStr basicAuth.Password then 1 else 0))) ∧
    (∀ oauth2 : provider.oAuth2Model,
      plan.OAuth2 = .known oauth2 →
      provider.blockPopulated plan.BasicAuth = false →
      provider.blockPopulated plan.HeaderAuth = false →
      (provider.missingStr oauth2.ClientId = true ↔
        provider.Diag.attrErr "oauth2" "client_id" "Missing Required Attribute"
          "The client_id attribute is required when using the oauth2 block."
          ∈ provider.ModifyPlan false plan) ∧
      (provider.missingStr oauth2.ClientSecret = true ↔
        provider.Diag.attrErr "oauth2" "client_secret" "Missing Required Attribute"
          "The client_secret attribute is required when using the oauth2 block."
          ∈ provider.ModifyPlan false plan) ∧
      (provider.missingStr oauth2.AccessTokenUrl = true ↔
        provider.Diag.attrErr "oauth2" "access_token_url" "Missing Required Attribute"
          "The access_token_url attribute is required when using the oauth2 block."
          ∈ provider.ModifyPlan false plan) ∧
      (provider.missingStr oauth2.AuthUrl = true ↔
        provider.Diag.attrErr "oauth2" "auth_url" "Missing Required Attribute"
          "The auth_url attribute is required when using the oauth2 block."
          ∈ provider.ModifyPlan false plan) ∧
      (provider.missingStr oauth2.Scope = true ↔
        provider.Diag.attrErr "oauth2" "scope" "Missing Required Attribute"
          "The scope attribute is required when using the oauth2 block."
          ∈ provider.ModifyPlan false plan) ∧
      (provider.ModifyPlan false plan).length =
        ((if provider.missingStr oauth2.ClientId then 1 else 0) +
         (if provider.missingStr oauth2.ClientSecret then 1 else 0) +
         (if provider.missingStr oauth2.AccessTokenUrl then 1 else 0) +
         (if provider.missingStr oauth2.AuthUrl then 1 else 0) +
         (if provider.missingStr oauth2.Scope then 1 else 0))) ∧
    (∀ headerAuth : provider.headerAuthModel,
      plan.HeaderAuth = .known headerAuth →
      provider.blockPopulated plan.BasicAuth = false →
      provider.blockPopulated plan.OAuth2 = false →
      (provider.missingStr headerAuth.Name = true ↔
        provider.Diag.attrErr "header_auth" "name" "Missing Required Attribute"
          "The name attribute is required when using the header_auth block."
          ∈ provider.ModifyPlan false plan) ∧
      (provider.missingStr headerAuth.Value = true ↔
        provider.Diag.attrErr "header_auth" "value" "Missing Required Attribute"
          "The value attribute is required when using the header_auth block."
          ∈ provider.ModifyPlan false plan) ∧
      (provider.ModifyPlan false plan).length =
        ((if provider.missingStr headerAuth.Name then 1 else 0) +
         (if provider.missingStr headerAuth.Value then 1 else 0))) := by
  refine ⟨?_, ?_, ?_⟩
  · intro basicAuth hb ho hh
    have hds := modifyPlan_eq_basicAuthFieldDiags plan basicAuth hb ho hh
    simp only [hds]
    cases h1 : provider.missingStr basicAuth.Username <;>
    cases h2 : provider.missingStr basicAuth.Password <;>
      simp [provider.basicAuthFieldDiags, h1, h2]
  · intro oauth2 ho hb hh
    have hds := modifyPlan_eq_oauth2FieldDiags plan oauth2 ho hb hh
    simp only [hds]
    cases h1 : provider.missingStr oauth2.ClientId <;>
    cases h2 : provider.missingStr oauth2.ClientSecret <;>
    cases h3 : provider.missingStr oauth2.AccessTokenUrl <;>
    cases h4 : provider.missingStr oauth2.AuthUrl <;>
    cases h5 : provider.missingStr oauth2.Scope <;>
      simp [provider.oauth2FieldDiags, h1, h2, h3, h4, h5]
  · intro headerAuth hh hb ho
    have hds := modifyPlan_eq_headerAuthFieldDiags plan headerAuth hh hb ho
    simp only [hds]
    cases h1 : provider.missingStr headerAuth.Name <;>
    cases h2 : provider.missingStr headerAuth.Value <;>
      simp [provider.headerAuthFieldDiags, h1, h2]

/-- Witness for `modifyPlan_collects_missing_mandatory_fields`, one
concrete plan per shape: basic_auth missing `password`, oauth2 missing
`client_id` and `scope` (both errors reported together), header_auth
missing `value`. -/
theorem modifyPlan_collects_missing_mandatory_fields_witness :
    (provider.Diag.attrErr "basic_auth" "password" "Missing Required Attribute"
        "The password attribute is required when using the basic_auth block."
        ∈ provider.ModifyPlan false basicPartialModel) ∧
    (provider.ModifyPlan false basicPartialModel).length = 1 ∧
    (provider.Diag.attrErr "oauth2" "client_id" "Missing Required Attribute"
        "The client_id attribute is required when using the oauth2 block."
        ∈ provider.ModifyPlan false oauth2PartialModel) ∧
    (provider.Diag.attrErr "oauth2" "scope" "Missing Required Attribute"
        "The scope attribute is required when using the oauth2 block."
        ∈ provider.ModifyPlan false oauth2PartialModel) ∧
    (provider.ModifyPlan false oauth2PartialModel).length = 2 ∧
    (provider.Diag.attrErr "header_auth" "value" "Missing Required Attribute"
        "The value attribute is required when using the header_auth block."
        ∈ provider.ModifyPlan false headerPartialModel) ∧
    (provider.ModifyPlan false headerPartialModel).length = 1 := by
  have hbw := (modifyPlan_collects_missing_mandatory_fields basicPartialModel).1
    { Username := .value "u", Password := .null } rfl rfl rfl
  have how := (modifyPlan_collects_missing_mandatory_fields oauth2PartialModel).2.1
    { ClientId := .null, ClientSecret := .value "cs",
      AccessTokenUrl := .value "https://t", AuthUrl := .value "https://a",
      Scope := .unknown, AuthQueryParameters := .null,
      SendAdditionalBodyProperties := .null,
      AdditionalBodyProperties := .null } rfl rfl rfl
  have hhw := (modifyPlan_collects_missing_mandatory_fields headerPartialModel).2.2
    { Name := .value "Authorization", Value := .unknown } rfl rfl rfl
  exact ⟨hbw.2.1.mp rfl, by rw [hbw.2.2]; decide,
    how.1.mp rfl, how.2.2.2.2.1.mp rfl, by rw [how.2.2.2.2.2]; decide,
    hhw.2.1.mp rfl, by rw [hhw.2.2]; decide⟩

/-- C4: for a declaration whose one populated shape is oauth2, the wire
payload always carries the three optional keys — they are never absent —
and each defaults (empty string / false) when its field is unset. -/
theorem oauth2_payload_defaults (model : provider.credentialResourceModel)
    (oauth2 : provider.oAuth2Model)
    (ho : model.OAuth2 = .known oauth2)
    (hb : provider.blockPopulated model.BasicAuth = false)
    (hh : provider.blockPopulated model.HeaderAuth = false) :
    provider.validateCredentialBlocks model =
      .ok ("oAuth2Api", provider.oauth2Data oauth2) ∧
    (jsonLookup (provider.oauth2Data oauth2) "authQueryParameters").isSome = true ∧
    (jsonLookup (provider.oauth2Data oauth2) "sendAdditionalBodyProperties").isSome = true ∧
    (jsonLookup (provider.oauth2Data oauth2) "additionalBodyProperties").isSome = true ∧
    (oauth2.AuthQueryParameters.isNull = true →
      jsonLookup (provider.oauth2Data oauth2) "authQueryParameters" =
        some (.str "")) ∧
    (oauth2.SendAdditionalBodyProperties.isNull = true →
      jsonLookup (provider.oauth2Data oauth2) "sendAdditionalBodyProperties" =
        some (.bool false)) ∧
    (oauth2.AdditionalBodyProperties.isNull = true →
      jsonLookup (provider.oauth2Data oauth2) "additionalBodyProperties" =
        some (.str "")) := by
  refine ⟨?_, ?_, ?_, ?_, ?_, ?_, ?_⟩
  · cases hcb : model.BasicAuth <;> cases hch : model.HeaderAuth <;>
      first
      | (simp [hcb, provider.blockPopulated, TFObject.isNull,
          TFObject.isUnknown] at hb; done)
      | (simp [hch, provider.blockPopulated, TFObject.isNull,
          TFObject.isUnknown] at hh; done)
      | simp [provider.validateCredentialBlocks, ho, hcb, hch]
  · simp [provider.oauth2Data, jsonLookup]
  · simp [provider.oauth2Data, jsonLookup]
  · simp [provider.oauth2Data, jsonLookup]
  · intro hq
    simp [provider.oauth2Data, jsonLookup, hq]
  · intro hq
    simp [provider.oauth2Data, jsonLookup, hq]
  · intro hq
    simp [provider.oauth2Data, jsonLookup, hq]

/-- Witness for `oauth2_payload_defaults`: the partial oauth2 model,
whose optional fields are all unset, maps them to "" / false. -/
theorem oauth2_payload_defaults_witness :
    provider.validateCredentialBlocks oauth2PartialModel =
      .ok ("oAuth2Api", provider.oauth2Data
        { ClientId := .null, ClientSecret := .value "cs",
          AccessTokenUrl := .value "https://t", AuthUrl := .value "https://a",
          Scope := .unknown, AuthQueryParameters := .null,
          SendAdditionalBodyProperties := .null,
          AdditionalBodyProperties := .null }) ∧
    jsonLookup (provider.oauth2Data
        { ClientId := .null, ClientSecret := .value "cs",
          AccessTokenUrl := .value "https://t", AuthUrl := .value "https://a",
          Scope := .unknown, AuthQueryParameters := .null,
          SendAdditionalBodyProperties := .null,
          AdditionalBodyProperties := .null }) "sendAdditionalBodyProperties" =
      some (.bool false) := by
  have h := oauth2_payload_defaults oauth2PartialModel
    { ClientId := .null, ClientSecret := .value "cs",
      AccessTokenUrl := .value "https://t", AuthUrl := .value "https://a",
      Scope := .unknown, AuthQueryParameters := .null,
      SendAdditionalBodyProperties := .null,
      AdditionalBodyProperties := .null } rfl rfl rfl
  exact ⟨h.1, h.2.2.2.2.2.1 rfl⟩

/-- C8 (documented behavior the code lacks): with host and api_key
omitted from the configuration, `Configure` reports the two missing-
value errors and hands no client to resources, whatever host and API
key the process environment supplies — the env-var path documented in
the README is absent from the code. -/
theorem configure_ignores_environment (env : List (String × String)) :
    provider.Configure
      { Host := .null, APIKey := .null, Insecure := .null } env =
      { diagnostics := [
          .attrErr "host" "" "Missing n8n API Host"
            ("The provider cannot create the n8n API client as there is an empty value for the n8n API host. " ++
             "Ensure the host value is not empty."),
          .attrErr "api_key" "" "Missing n8n API Key"
            ("The provider cannot create the n8n API client as there is an empty value for the n8n API key. " ++
             "Ensure the api_key value is not empty.")],
        resourceData := none } := rfl

/-- Witness for `configure_ignores_environment`: even with `N8N_HOST`
and `N8N_API_KEY` set in the environment, no client is configured. -/
theorem configure_ignores_environment_witness :
    (provider.Configure
      { Host := .null, APIKey := .null, Insecure := .null }
      [("N8N_HOST", "https://n8n.example.com"),
       ("N8N_API_KEY", "test-api-key")]).resourceData = none := by
  rw [configure_ignores_environment]
